import Mathlib

/-!
Verification development for the VPSie-LoadBalancer control-plane agent.

The Go sources are shallowly embedded: pure functions become Lean
functions, stateful code becomes explicit state passing, and external
collaborators (the OS filesystem, symlink resolution, DNS, the HTTP
transport, the subprocess spawner) become explicit oracle parameters.
Paths are Unix paths; `path/filepath` lexical operations (`Clean`,
`Dir`, `Join`, `Abs`) are modelled character-for-character.
-/

namespace VPSieLB

/-! ### Go `path/filepath` lexical path operations (Unix) -/

/-- Split a character list on `/` separators (keeping empty segments). -/
def splitSlashAux : List Char → List Char → List (List Char)
  | [], cur => [cur.reverse]
  | '/' :: rest, cur => cur.reverse :: splitSlashAux rest []
  | c :: rest, cur => splitSlashAux rest (c :: cur)

/-- The non-empty, non-`.` path elements of a path string. -/
def pathElems (s : String) : List (List Char) :=
  (splitSlashAux s.data []).filter (fun t => !(t == []) && !(t == ['.']))

/-- Process `..` elements the way `filepath.Clean` does: pop the previous
element when possible, drop at the root, keep leading `..` for relative
paths. `acc` is the processed stack in reverse order. -/
def resolveDots (rooted : Bool) : List (List Char) → List (List Char) → List (List Char)
  | acc, [] => acc.reverse
  | acc, seg :: rest =>
    if seg == ['.', '.'] then
      match acc with
      | [] => if rooted then resolveDots rooted [] rest
              else resolveDots rooted [['.', '.']] rest
      | t :: acc' =>
        if t == ['.', '.'] then resolveDots rooted (['.', '.'] :: acc) rest
        else resolveDots rooted acc' rest
    else resolveDots rooted (seg :: acc) rest

/-- Interleave path segments with `/`. -/
def interSlash : List (List Char) → List Char
  | [] => []
  | [x] => x
  | x :: rest => x ++ '/' :: interSlash rest

/-- Whether a path is rooted (`filepath.IsAbs` on Unix). -/
def goIsAbs (p : String) : Bool :=
  match p.data with
  | '/' :: _ => true
  | _ => false

/-- `filepath.Clean` (Unix): shortest lexically equivalent path. -/
def goClean (p : String) : String :=
  if p.data == [] then "."
  else
    let rooted := goIsAbs p
    match resolveDots rooted [] (pathElems p) with
    | [] => if rooted then "/" else "."
    | segs => String.mk ((if rooted then ['/'] else []) ++ interSlash segs)

/-- `filepath.Join` of two elements: empty elements are dropped and the
result is Cleaned. -/
def goJoin (a b : String) : String :=
  if a.data == [] then (if b.data == [] then "" else goClean b)
  else if b.data == [] then goClean a
  else goClean (String.mk (a.data ++ '/' :: b.data))

/-- `filepath.Abs` given the process working directory `cwd`: the path
itself (Cleaned) when rooted, otherwise joined onto `cwd`. -/
def goAbs (cwd p : String) : String :=
  if goIsAbs p then goClean p else goJoin cwd p

/-- `filepath.Dir`: everything up to the final path element, Cleaned;
`.` when the path holds no separator. -/
def goDir (p : String) : String :=
  let pre := (p.data.reverse.dropWhile (fun c => !(c == '/'))).reverse
  if pre == [] then "." else goClean (String.mk pre)

/-- Boolean list-prefix test (used for `strings.HasPrefix`). -/
def isPrefixList : List Char → List Char → Bool
  | [], _ => true
  | _ :: _, [] => false
  | a :: as, b :: bs => a == b && isPrefixList as bs

/-- `strings.HasPrefix p (d ++ "/") || p == d`: the path `p` equals `d`
or lies strictly under the directory `d`. -/
def underDir (p d : String) : Bool :=
  p == d || isPrefixList (d.data ++ ['/']) p.data

/-! ### Filesystem model

Files are a partial map from path strings to content (byte list) and a
Unix permission mode.  Directories are not tracked: `os.MkdirAll` is a
no-op in the model.  `os.WriteFile` follows its documented semantics:
the permission argument applies only when the file is being created;
overwriting an existing file truncates it without changing its mode.
`os.Rename` moves the source record (content and mode) to the target.
Disk-level I/O failures are not modelled: reads and writes succeed,
with a missing file being the only read failure (`os.IsNotExist`). -/

/-- A file: its byte content and its permission mode. -/
structure FileRec where
  content : List Nat
  mode : Nat
deriving DecidableEq, Repr

/-- Filesystem state: path → file. -/
def Fs : Type := String → Option FileRec

/-- `os.WriteFile`: create with `perm` when absent, otherwise truncate
and rewrite without changing the existing mode. -/
def fsWrite (fs : Fs) (p : String) (data : List Nat) (perm : Nat) : Fs :=
  fun q =>
    if q = p then
      some ⟨data, match fs p with | some f => f.mode | none => perm⟩
    else fs q

/-- `os.Rename src dst`. -/
def fsRename (fs : Fs) (src dst : String) : Fs :=
  fun q => if q = dst then fs src else if q = src then none else fs q

/-- `os.ReadFile`: `none` models the `os.IsNotExist` error. -/
def fsRead (fs : Fs) (p : String) : Option FileRec := fs p

/-! ### On-disk configuration store (`envoy.ConfigManager`, hardened
version with `validatePath`) -/

/-- Result of `filepath.EvalSymlinks`, supplied as an oracle. -/
inductive SymlinkRes where
  | resolved (p : String)
  | notExist
  | ioError
deriving DecidableEq, Repr

/-- Errors of the store, by the source's error branches. -/
inductive StoreErr where
  | pathEscape (p : String)
  | symlinkEvalFailed
  | symlinkEscape (p q : String)
deriving DecidableEq, Repr

/-- `envoy.ConfigManager`: the cleaned absolute config directory and its
parent (`baseDir`), which hosts the bootstrap file. -/
structure ConfigManager where
  configDir : String
  baseDir : String
deriving DecidableEq, Repr

/-- `envoy.NewConfigManager`: clean and absolutise the config directory,
record its parent. -/
def newConfigManager (cwd configDir : String) : ConfigManager :=
  let c := goAbs cwd (goClean configDir)
  ⟨c, goDir c⟩

/-- `ConfigManager.validatePath`: the cleaned absolute path must equal or
lie under `configDir` or `baseDir`; then, when the path resolves through
symlinks to a different path, the resolved path must satisfy the same
constraint. -/
def validatePath (cm : ConfigManager) (evalSym : String → SymlinkRes)
    (cwd p : String) : Option StoreErr :=
  let cleanPath := goAbs cwd (goClean p)
  if !(underDir cleanPath cm.configDir || underDir cleanPath cm.baseDir) then
    some (.pathEscape cleanPath)
  else
    match evalSym cleanPath with
    | .ioError => some .symlinkEvalFailed
    | .notExist => none
    | .resolved ep =>
      if ep = cleanPath then none
      else if !(underDir ep cm.configDir || underDir ep cm.baseDir) then
        some (.symlinkEscape cleanPath ep)
      else none

/-- `ConfigManager.atomicWrite`: validate the path, write `<p>.tmp` with
mode 0644, rename it onto `p`.  On a validation failure nothing is
written. -/
def atomicWrite (cm : ConfigManager) (evalSym : String → SymlinkRes)
    (cwd p : String) (data : List Nat) (fs : Fs) : Fs × Option StoreErr :=
  match validatePath cm evalSym cwd p with
  | some e => (fs, some e)
  | none =>
    let tmp := p ++ ".tmp"
    let fs1 := fsWrite fs tmp data 0o644
    (fsRename fs1 tmp p, none)

/-- `ConfigManager.writeConfigFile`. -/
def writeConfigFile (cm : ConfigManager) (evalSym : String → SymlinkRes)
    (cwd name : String) (data : List Nat) (fs : Fs) : Fs × Option StoreErr :=
  atomicWrite cm evalSym cwd (goJoin cm.configDir name) data fs

/-- `ConfigManager.WriteListeners`. -/
def writeListeners (cm : ConfigManager) (evalSym : String → SymlinkRes)
    (cwd : String) (data : List Nat) (fs : Fs) : Fs × Option StoreErr :=
  writeConfigFile cm evalSym cwd "listeners.yaml" data fs

/-- `ConfigManager.WriteClusters`. -/
def writeClusters (cm : ConfigManager) (evalSym : String → SymlinkRes)
    (cwd : String) (data : List Nat) (fs : Fs) : Fs × Option StoreErr :=
  writeConfigFile cm evalSym cwd "clusters.yaml" data fs

/-- `ConfigManager.WriteBootstrap`: writes `bootstrap.yaml` under the
parent of the config directory. -/
def writeBootstrap (cm : ConfigManager) (evalSym : String → SymlinkRes)
    (cwd : String) (data : List Nat) (fs : Fs) : Fs × Option StoreErr :=
  atomicWrite cm evalSym cwd (goJoin (goDir cm.configDir) "bootstrap.yaml") data fs

/-- The rendered artifact (`envoy.EnvoyConfig`): two opaque byte
sequences. -/
structure EnvoyConfig where
  listeners : List Nat
  clusters : List Nat
deriving DecidableEq, Repr

/-- `ConfigManager.ApplyConfig`: write listeners, then clusters; stop at
the first failure. -/
def applyConfig (cm : ConfigManager) (evalSym : String → SymlinkRes)
    (cwd : String) (cfg : EnvoyConfig) (fs : Fs) : Fs × Option StoreErr :=
  match writeListeners cm evalSym cwd cfg.listeners fs with
  | (fs1, some e) => (fs1, some e)
  | (fs1, none) => writeClusters cm evalSym cwd cfg.clusters fs1

/-- Copy one file for `BackupConfig`/`RestoreConfig`: a missing source is
skipped. -/
def copyFileSkip (fs : Fs) (src dst : String) (perm : Nat) : Fs :=
  match fsRead fs src with
  | none => fs
  | some f => fsWrite fs dst f.content perm

/-- `ConfigManager.BackupConfig`: copy the two managed files into
`<configDir>/.backup` with permission argument 0600; missing sources are
skipped. -/
def backupConfig (cm : ConfigManager) (fs : Fs) : Fs :=
  let bdir := goJoin cm.configDir ".backup"
  let fs1 := copyFileSkip fs (goJoin cm.configDir "listeners.yaml")
      (goJoin bdir "listeners.yaml") 0o600
  copyFileSkip fs1 (goJoin cm.configDir "clusters.yaml")
      (goJoin bdir "clusters.yaml") 0o600

/-- `ConfigManager.RestoreConfig`: copy the backups back over the managed
files with permission argument 0644; missing backups are skipped. -/
def restoreConfig (cm : ConfigManager) (fs : Fs) : Fs :=
  let bdir := goJoin cm.configDir ".backup"
  let fs1 := copyFileSkip fs (goJoin bdir "listeners.yaml")
      (goJoin cm.configDir "listeners.yaml") 0o644
  copyFileSkip fs1 (goJoin bdir "clusters.yaml")
      (goJoin cm.configDir "clusters.yaml") 0o644

/-! ### Domain model (`pkg/models`)

The validators are pure except for TLS path validation, which consults
the working directory (`filepath.Abs`) and symlink resolution
(`filepath.EvalSymlinks`), and backend address validation, which calls
`net.ParseIP`.  These outside dependencies are collected in `Env`.
Go `int` fields are modelled as `Int` (no arithmetic near 2^63 occurs),
`time.Time` timestamps as opaque `Int` values. -/

/-- Environment of the validators: working directory for `filepath.Abs`,
`net.ParseIP` success (only nil-ness of the result is consulted), and
`filepath.EvalSymlinks`. -/
structure Env where
  cwd : String
  isIP : String → Bool
  evalSym : String → SymlinkRes

/-- Failure cases of `validateTLSFilePath`, by its error branches. -/
inductive PathErr where
  | outsideAllowed (dir : String)
  | symlinkEvalFailed
  | symlinkOutside (p q : String)
deriving DecidableEq, Repr

/-- The errors the model validators can produce.  The named constructors
up to `invalidTLSVersion` are the exported sentinel values of
`pkg/models/errors.go`; the final three are the non-sentinel errors that
`TLSConfig.Validate` builds with `fmt.Errorf` around a TLS file-path
failure. -/
inductive VErr where
  | invalidID
  | invalidName
  | invalidPort
  | invalidProtocol
  | noBackends
  | invalidAlgorithm
  | missingTLSConfig
  | invalidBackendID
  | invalidBackendAddress
  | invalidBackendPort
  | invalidBackendWeight
  | invalidHealthCheckType
  | invalidHealthCheckInterval
  | invalidHealthCheckTimeout
  | healthCheckTimeoutTooLong
  | invalidUnhealthyThreshold
  | invalidHealthyThreshold
  | missingHealthCheckPath
  | missingCertificate
  | missingPrivateKey
  | invalidTLSVersion
  | invalidCertPath (e : PathErr)
  | invalidKeyPath (e : PathErr)
  | invalidCAPath (e : PathErr)
deriving DecidableEq, Repr

/-- Whether an error is one of the exported sentinel values (`errors.New`
package variables) rather than a wrapped `fmt.Errorf` error. -/
def VErr.isSentinel : VErr → Bool
  | .invalidCertPath _ => false
  | .invalidKeyPath _ => false
  | .invalidCAPath _ => false
  | _ => true

/-- The closed result set of §7 that claim C2 names: the load-balancer,
backend, health-check and TLS sentinels — everything except
`ErrInvalidAlgorithm` (which no validator returns) and the wrapped TLS
path errors. -/
def VErr.inClaimedClosedSet : VErr → Bool
  | .invalidAlgorithm => false
  | .invalidCertPath _ => false
  | .invalidKeyPath _ => false
  | .invalidCAPath _ => false
  | _ => true

/-- The closed set of C2 extended by the three wrapped TLS path-error
families — everything a validator can actually return.
`ErrInvalidAlgorithm` stays excluded: no validator returns it. -/
def VErr.inExtendedSet : VErr → Bool
  | .invalidAlgorithm => false
  | _ => true

/-- ASCII letter or digit, the `[a-zA-Z0-9]` class. -/
def isAlnumChar (c : Char) : Bool :=
  (('a' ≤ c) && (c ≤ 'z')) || (('A' ≤ c) && (c ≤ 'Z')) || (('0' ≤ c) && (c ≤ '9'))

/-- Split a character list on a separator character. -/
def splitChAux (sep : Char) : List Char → List Char → List (List Char)
  | [], cur => [cur.reverse]
  | c :: rest, cur =>
    if c = sep then cur.reverse :: splitChAux sep rest []
    else splitChAux sep rest (c :: cur)

/-- One DNS label of `models.HostnameRegex`
(`[a-zA-Z0-9]([a-zA-Z0-9-]{0,61}[a-zA-Z0-9])?`): 1–63 characters,
alphanumeric first and last, hyphens allowed inside. -/
def labelOk (l : List Char) : Bool :=
  match l, l.getLast? with
  | [], _ => false
  | _, none => false
  | c :: _, some last =>
    isAlnumChar c && isAlnumChar last && decide (l.length ≤ 63) &&
      (l.dropLast.drop 1).all (fun x => isAlnumChar x || x == '-')

/-- `models.HostnameRegex.MatchString`: dot-separated labels, each
matching `labelOk`. -/
def hostnameMatch (s : String) : Bool :=
  (splitChAux '.' s.data []).all labelOk

/-- The `[a-zA-Z0-9\-_]+` pattern (`agent.idPattern`, also the spec's
identifier format). -/
def idPatternMatch (s : String) : Bool :=
  !(s.data == []) && s.data.all (fun c => isAlnumChar c || c == '-' || c == '_')

/-- `models.Backend`. -/
structure Backend where
  id : String
  address : String
  status : String
  port : Int
  weight : Int
  enabled : Bool
deriving DecidableEq, Repr

/-- `Backend.Validate` (address-validating version): non-empty id and
address; a non-IP address must match the hostname pattern and be at most
253 characters; port in [1, 65535]; non-negative weight. -/
def Backend.validate (env : Env) (b : Backend) : Option VErr :=
  if b.id = "" then some .invalidBackendID
  else if b.address = "" then some .invalidBackendAddress
  else if !env.isIP b.address && !hostnameMatch b.address then
    some .invalidBackendAddress
  else if !env.isIP b.address && b.address.length > 253 then
    some .invalidBackendAddress
  else if b.port ≤ 0 || b.port > 65535 then some .invalidBackendPort
  else if b.weight < 0 then some .invalidBackendWeight
  else none

/-- `Backend.IsHealthy`. -/
def Backend.isHealthy (b : Backend) : Bool :=
  b.enabled && b.status == "up"

/-- `models.HealthCheck`.  Header maps are modelled as association
lists; the `type` field carries the string constants tcp/http/https. -/
structure HealthCheck where
  expectedStatus : List Int
  path : String
  type : String
  headers : List (String × String)
  interval : Int
  timeout : Int
  unhealthyThreshold : Int
  healthyThreshold : Int
deriving DecidableEq, Repr

/-- `HealthCheck.Validate`. -/
def HealthCheck.validate (h : HealthCheck) : Option VErr :=
  if !(h.type == "tcp" || h.type == "http" || h.type == "https") then
    some .invalidHealthCheckType
  else if h.interval ≤ 0 then some .invalidHealthCheckInterval
  else if h.timeout ≤ 0 then some .invalidHealthCheckTimeout
  else if h.timeout ≥ h.interval then some .healthCheckTimeoutTooLong
  else if h.unhealthyThreshold ≤ 0 then some .invalidUnhealthyThreshold
  else if h.healthyThreshold ≤ 0 then some .invalidHealthyThreshold
  else if (h.type == "http" || h.type == "https") && h.path = "" then
    some .missingHealthCheckPath
  else none

/-- `models.TLSConfig`. -/
structure TLSConfig where
  certificatePath : String
  privateKeyPath : String
  caCertPath : String
  minVersion : String
  maxVersion : String
  cipherSuites : List String
  alpn : List String
deriving DecidableEq, Repr

/-- `models.defaultTLSCertDir`. -/
def defaultTLSCertDir : String := "/etc/vpsie-lb/certs"

/-- `models.validateTLSFilePath`: the cleaned absolute path must equal
or lie under the allowed directory, and when it resolves through
symlinks to a different path the resolved path must too. -/
def validateTLSFilePath (env : Env) (path allowedDir : String) : Option PathErr :=
  let cleanPath := goAbs env.cwd (goClean path)
  let absAllowedDir := goAbs env.cwd allowedDir
  if !(underDir cleanPath absAllowedDir) then some (.outsideAllowed absAllowedDir)
  else
    match env.evalSym cleanPath with
    | .ioError => some .symlinkEvalFailed
    | .notExist => none
    | .resolved ep =>
      if ep = cleanPath then none
      else if !(underDir ep absAllowedDir) then some (.symlinkOutside cleanPath ep)
      else none

/-- `TLSConfig.Validate` (path-validating version): required paths, each
present path constrained to the trusted certificate directory (the path
failures are wrapped with `fmt.Errorf`, not sentinels), then the version
whitelist. -/
def TLSConfig.validate (env : Env) (t : TLSConfig) : Option VErr :=
  if t.certificatePath = "" then some .missingCertificate
  else if t.privateKeyPath = "" then some .missingPrivateKey
  else
    match validateTLSFilePath env t.certificatePath defaultTLSCertDir with
    | some e => some (.invalidCertPath e)
    | none =>
      match validateTLSFilePath env t.privateKeyPath defaultTLSCertDir with
      | some e => some (.invalidKeyPath e)
      | none =>
        match
          (if t.caCertPath ≠ "" then
            validateTLSFilePath env t.caCertPath defaultTLSCertDir
          else none) with
        | some e => some (.invalidCAPath e)
        | none =>
          if !(t.minVersion == "TLSv1.2" || t.minVersion == "TLSv1.3") then
            some .invalidTLSVersion
          else if t.maxVersion ≠ "" &&
              !(t.maxVersion == "TLSv1.2" || t.maxVersion == "TLSv1.3") then
            some .invalidTLSVersion
          else none

/-- `models.Timeouts`. -/
structure Timeouts where
  connect : Int
  idle : Int
  request : Int
deriving DecidableEq, Repr

/-- `models.LoadBalancer`.  Protocol and algorithm carry their string
constants; timestamps are opaque. -/
structure LoadBalancer where
  id : String
  name : String
  protocol : String
  port : Int
  algorithm : String
  backends : List Backend
  healthCheck : Option HealthCheck
  tlsConfig : Option TLSConfig
  timeouts : Option Timeouts
  maxConnections : Int
  createdAt : Int
  updatedAt : Int
deriving DecidableEq, Repr

/-- `LoadBalancer.validateBasicFields`: non-empty id and name, port in
[1, 65535], protocol in the constant set.  No format or length check
beyond emptiness. -/
def LoadBalancer.validateBasicFields (lb : LoadBalancer) : Option VErr :=
  if lb.id = "" then some .invalidID
  else if lb.name = "" then some .invalidName
  else if lb.port ≤ 0 || lb.port > 65535 then some .invalidPort
  else if !(lb.protocol == "http" || lb.protocol == "https" || lb.protocol == "tcp") then
    some .invalidProtocol
  else none

/-- First failure among the backends, in order. -/
def firstBackendErr (env : Env) : List Backend → Option VErr
  | [] => none
  | b :: rest =>
    match b.validate env with
    | some e => some e
    | none => firstBackendErr env rest

/-- `LoadBalancer.validateBackends`: at least one backend, each valid,
short-circuiting on the first failure. -/
def LoadBalancer.validateBackends (env : Env) (lb : LoadBalancer) : Option VErr :=
  if lb.backends.isEmpty then some .noBackends
  else firstBackendErr env lb.backends

/-- `LoadBalancer.validateTLSConfig`: HTTPS requires a TLS config; a
present TLS config must validate. -/
def LoadBalancer.validateTLSConfig (env : Env) (lb : LoadBalancer) : Option VErr :=
  if lb.protocol == "https" && lb.tlsConfig.isNone then some .missingTLSConfig
  else
    match lb.tlsConfig with
    | some t => t.validate env
    | none => none

/-- `LoadBalancer.validateHealthCheck`. -/
def LoadBalancer.validateHealthCheck (lb : LoadBalancer) : Option VErr :=
  match lb.healthCheck with
  | some h => h.validate
  | none => none

/-- `LoadBalancer.Validate`: basic fields, then backends, then TLS, then
health check; first failure wins. -/
def LoadBalancer.validate (env : Env) (lb : LoadBalancer) : Option VErr :=
  match lb.validateBasicFields with
  | some e => some e
  | none =>
    match lb.validateBackends env with
    | some e => some e
    | none =>
      match lb.validateTLSConfig env with
      | some e => some e
      | none => lb.validateHealthCheck

/-! ### Hot-restart driver (`envoy.Reloader`, serialized version)

`Reload` is serialized by a mutex, so its calls form a sequence; the
model folds that sequence.  The epoch is a Go `atomic.Int32`: a 32-bit
two's-complement counter whose `Add` wraps on overflow.  It is modelled
as a bit pattern in ℤ/2^32 (integers with explicit reduction mod 2^32),
with the signed interpretation applied where the source converts to
`int` — `strconv.Itoa(int(newEpoch))` for the argv and the return of
`GetCurrentEpoch`.  Spawn success is an oracle, one boolean per call. -/

instance : NeZero (4294967296 : Nat) := ⟨by norm_num⟩

/-- The value space of a Go `int32`: 2^32 bit patterns; two's-complement
`Add`/`Sub` are addition and subtraction mod 2^32 on the patterns. -/
abbrev Int32 := ZMod 4294967296

/-- The signed interpretation of an `int32` bit pattern (the value Go's
`int(x)` conversion and decimal formatting produce). -/
def int32ToSigned (x : Int32) : Int :=
  if x.val < 2 ^ 31 then (x.val : Int) else (x.val : Int) - 2 ^ 32

/-- `envoy.Reloader`. -/
structure Reloader where
  envoyBinary : String
  configPath : String
  pidFile : String
  currentEpoch : Int32
deriving DecidableEq

/-- `envoy.NewReloader`: epoch starts at 0. -/
def newReloader (envoyBinary configPath pidFile : String) : Reloader :=
  ⟨envoyBinary, configPath, pidFile, 0⟩

/-- The argv the driver hands to the proxy binary:
`envoyBinary -c configPath --restart-epoch N --parent-shutdown-time-s 10`,
with `N` the signed decimal of the incremented epoch. -/
structure SpawnCmd where
  binary : String
  configPath : String
  restartEpoch : Int
  parentShutdownTimeS : Int
deriving DecidableEq, Repr

/-- `Reloader.Reload`: increment the epoch (wrapping, as `atomic.Int32`
does), spawn; on spawn failure roll the epoch back and fail.  Returns
the new state, the spawned command line, and whether the call
succeeded. -/
def Reloader.reload (spawnOk : Bool) (r : Reloader) : Reloader × SpawnCmd × Bool :=
  let newEpoch := r.currentEpoch + 1
  let cmd : SpawnCmd := ⟨r.envoyBinary, r.configPath, int32ToSigned newEpoch, 10⟩
  if spawnOk then ({ r with currentEpoch := newEpoch }, cmd, true)
  else ({ r with currentEpoch := newEpoch - 1 }, cmd, false)

/-- `Reloader.GetCurrentEpoch`: `int(currentEpoch.Load())`. -/
def Reloader.getCurrentEpoch (r : Reloader) : Int :=
  int32ToSigned r.currentEpoch

/-- Fold a sequence of `Reload` calls with the given spawn outcomes,
collecting for each call the `--restart-epoch` value passed and whether
the call succeeded. -/
def runReloads (r : Reloader) : List Bool → List (Int × Bool) × Reloader
  | [] => ([], r)
  | ok :: rest =>
    let step := r.reload ok
    let next := runReloads step.1 rest
    ((step.2.1.restartEpoch, step.2.2) :: next.1, next.2)

/-- The `--restart-epoch` values of the successful calls of a trace. -/
def successEpochs (tr : List (Int × Bool)) : List Int :=
  (tr.filter (fun e => e.2)).map (fun e => e.1)

/-! ### Reconciliation tick (`agent.Agent.syncConfiguration`)

One tick against explicit collaborator outcomes: the fetch result
(`none` = fetch error), the configuration hash (`computeConfigHash`,
i.e. SHA-256 of the JSON encoding — abstracted to a deterministic
function of the model value), the renderer (`GenerateFullConfig`,
`none` = render error), and the spawn outcome of the reload.  File I/O
inside backup/apply/restore is the pure filesystem model.  The trace
records which side effects the tick attempted. -/

/-- Mutable agent state threaded through ticks. -/
structure AgentSt where
  fs : Fs
  reloader : Reloader
  lastConfigHash : String

/-- Error cases of one tick, by the return branches of
`syncConfiguration`. -/
inductive SyncErr where
  | fetchFailed
  | invalidConfig (e : VErr)
  | generateFailed
  | applyFailed (e : StoreErr)
  | reloadFailed
deriving DecidableEq, Repr

/-- Which side effects a tick attempted. -/
structure TickTrace where
  backedUp : Bool
  rendered : Bool
  wroteFiles : Bool
  reloadAttempted : Bool
  eventSent : Bool
deriving DecidableEq, Repr

/-- The trace of a tick that performed no side effect. -/
def TickTrace.none : TickTrace := ⟨false, false, false, false, false⟩

/-- `Agent.syncConfiguration`: fetch → validate → hash-compare → backup
(failure only logged; modelled as succeeding) → render → apply →
reload-with-restore-on-failure → record hash → send event (failure only
logged). -/
def syncConfiguration (env : Env) (cm : ConfigManager)
    (fetch : Option LoadBalancer) (hash : LoadBalancer → String)
    (gen : LoadBalancer → Option EnvoyConfig) (spawnOk : Bool)
    (st : AgentSt) : AgentSt × Option SyncErr × TickTrace :=
  match fetch with
  | none => (st, some .fetchFailed, .none)
  | some lb =>
    match lb.validate env with
    | some e => (st, some (.invalidConfig e), .none)
    | none =>
      let configHash := hash lb
      if configHash = st.lastConfigHash then (st, none, .none)
      else
        let fs1 := backupConfig cm st.fs
        match gen lb with
        | none => ({ st with fs := fs1 }, some .generateFailed,
            ⟨true, true, false, false, false⟩)
        | some cfg =>
          match applyConfig cm env.evalSym env.cwd cfg fs1 with
          | (fs2, some e) => ({ st with fs := fs2 }, some (.applyFailed e),
              ⟨true, true, true, false, false⟩)
          | (fs2, Option.none) =>
            let step := st.reloader.reload spawnOk
            if step.2.2 then
              ({ fs := fs2, reloader := step.1, lastConfigHash := configHash },
               none, ⟨true, true, true, true, true⟩)
            else
              ({ st with fs := restoreConfig cm fs2, reloader := step.1 },
               some .reloadFailed, ⟨true, true, true, true, false⟩)

/-! ### Remote API client (`agent.VPSieClient`, hardened version)

`net.ParseIP`, `net.LookupIP` and `url.Parse` are oracles; the private
CIDR containment test is embedded from the hardcoded range list.  HTTP
attempts are an oracle from attempt index to outcome. -/

/-- An IP address as the `net` package classifies it: 4-byte IPv4
(including IPv4-mapped IPv6, which `Contains` converts with `To4`) or
16-byte IPv6. -/
inductive IPAddr where
  | v4 (a b c d : Nat)
  | v6 (bytes : List Nat)
deriving DecidableEq, Repr

/-- Containment in the hardcoded private ranges of
`isPrivateOrLocalhost`: 10.0.0.0/8, 172.16.0.0/12, 192.168.0.0/16,
169.254.0.0/16, fd00::/8, fe80::/10.  A 4-byte address never matches a
16-byte network and conversely (`net.IPNet.Contains` length check). -/
def inPrivateRanges : IPAddr → Bool
  | .v4 a b _ _ =>
    (a == 10) || (a == 172 && decide (16 ≤ b ∧ b ≤ 31)) ||
      (a == 192 && b == 168) || (a == 169 && b == 254)
  | .v6 bytes =>
    match bytes with
    | b0 :: b1 :: _ =>
      (b0 == 0xfd) || (b0 == 0xfe && decide (0x80 ≤ b1 ∧ b1 ≤ 0xbf))
    | _ => false

/-- Name-resolution environment: `net.ParseIP` (none = not an IP
literal) and `net.LookupIP` (first address; none = resolution failure
or empty answer). -/
structure NetEnv where
  parseIP : String → Option IPAddr
  lookupIP : String → Option IPAddr

/-- `agent.isPrivateOrLocalhost`: textual localhost checks first, then
parse as IP (falling back to a DNS lookup), then the private ranges. -/
def isPrivateOrLocalhost (net : NetEnv) (host : String) : Bool :=
  if host == "localhost" || isPrefixList "127.".data host.data || host == "::1" then
    true
  else
    match net.parseIP host with
    | some ip => inPrivateRanges ip
    | none =>
      match net.lookupIP host with
      | none => false
      | some ip => inPrivateRanges ip

/-- Construction failures of the client, by its error branches. -/
inductive ClientErr where
  | invalidBaseURL
  | badScheme
  | privateHost
  | domainNotAllowed (h : String)
deriving DecidableEq, Repr

/-- The domain whitelist of `validateHostname`. -/
def allowedDomains : List String := ["api.vpsie.com", "vpsie.com"]

/-- Boolean list-suffix test (for `strings.HasSuffix`). -/
def isSuffixList (a b : List Char) : Bool :=
  isPrefixList a.reverse b.reverse

/-- Host equals the domain or ends in `"." ++ domain`. -/
def hostMatchesDomain (hostname domain : String) : Bool :=
  hostname == domain || isSuffixList ('.' :: domain.data) hostname.data

/-- `agent.validateHostname`: bypassed in test mode; otherwise rejects
private/localhost hosts and anything off the whitelist. -/
def validateHostname (testMode : Bool) (net : NetEnv) (hostname : String) :
    Option ClientErr :=
  if testMode then none
  else if isPrivateOrLocalhost net hostname then some .privateHost
  else if allowedDomains.any (fun d => hostMatchesDomain hostname d) then none
  else some (.domainNotAllowed hostname)

/-- The parts of `url.Parse`'s result the constructor consults. -/
structure ParsedURL where
  scheme : String
  hostname : String
deriving DecidableEq, Repr

/-- `agent.VPSieClient` (the fields; the HTTP client holds no state the
claims touch). -/
structure VPSieClient where
  apiKey : String
  baseURL : String
  loadBalancerID : String
deriving DecidableEq, Repr

/-- `agent.NewVPSieClient`: parse the base URL, require an http/https
scheme, validate the hostname; only then produce a client. -/
def newVPSieClient (testMode : Bool) (net : NetEnv)
    (parseURL : String → Option ParsedURL)
    (apiKey baseURL loadBalancerID : String) : Except ClientErr VPSieClient :=
  match parseURL baseURL with
  | none => .error .invalidBaseURL
  | some u =>
    if !(u.scheme == "https" || u.scheme == "http") then .error .badScheme
    else
      match validateHostname testMode net u.hostname with
      | some e => .error e
      | none => .ok ⟨apiKey, baseURL, loadBalancerID⟩

/-- Whether construction failed (no client value produced; the request
methods all take a client, so no request can be issued from a failed
construction). -/
def constructionFailed : Except ClientErr VPSieClient → Bool
  | .error _ => true
  | .ok _ => false

/-- Outcome of one `httpClient.Do` call: a transport error (nil
response) or a response with a status code and a body identifier. -/
inductive AttemptRes where
  | netErr
  | resp (status : Nat) (bodyId : Nat)
deriving DecidableEq, Repr

/-- Observable body/timing events of the retry loop. -/
inductive HttpEvent where
  | closeBody (bodyId : Nat)
  | drainBody (bodyId : Nat)
  | sleep (seconds : Nat)
deriving DecidableEq, Repr

/-- `err == nil && resp.StatusCode < 500`: the loop returns this
attempt. -/
def retrySuccess : AttemptRes → Bool
  | .netErr => false
  | .resp s _ => decide (s < 500)

/-- Body-close events of a discarded attempt (`resp.Body.Close()` when
`resp != nil`; note no drain). -/
def closeEvents : AttemptRes → List HttpEvent
  | .netErr => []
  | .resp _ b => [.closeBody b]

/-- `agent.doWithRetry`, unrolled from attempt index `i` with the given
number of retries remaining.  The final attempt's outcome is returned
as-is; a discarded attempt's body is closed (not drained) and the loop
sleeps `2^attempt` seconds before retrying.  Returns the outcome, the
events, and the number of attempts made. -/
def doWithRetryGo (attempts : Nat → AttemptRes) (i : Nat) :
    Nat → AttemptRes × List HttpEvent × Nat
  | 0 => (attempts i, [], i + 1)
  | remaining + 1 =>
    let r := attempts i
    if retrySuccess r then (r, [], i + 1)
    else
      let next := doWithRetryGo attempts (i + 1) remaining
      (next.1, closeEvents r ++ HttpEvent.sleep (2 ^ i) :: next.2.1, next.2.2)

/-- `doWithRetry fn maxRetries` from the first attempt. -/
def doWithRetry (attempts : Nat → AttemptRes) (maxRetries : Nat) :
    AttemptRes × List HttpEvent × Nat :=
  doWithRetryGo attempts 0 maxRetries

/-- `GetLoadBalancerConfig`'s transport phase: the only operation that
goes through `doWithRetry`, with maxRetries = 3. -/
def getLoadBalancerConfigTransport (attempts : Nat → AttemptRes) :
    AttemptRes × List HttpEvent × Nat :=
  doWithRetry attempts 3

/-- Success check of a non-GET operation against its accepted statuses. -/
def opAccepted (r : AttemptRes) (okStatuses : List Nat) : Bool :=
  match r with
  | .netErr => false
  | .resp s _ => okStatuses.contains s

/-- `UpdateLoadBalancerStatus`: a single `Do` call (no retry), accepting
200/204. -/
def updateLoadBalancerStatusTransport (attempts : Nat → AttemptRes) : Bool × Nat :=
  (opAccepted (attempts 0) [200, 204], 1)

/-- `UpdateBackendStatus`: a single `Do` call (no retry), accepting
200/204. -/
def updateBackendStatusTransport (attempts : Nat → AttemptRes) : Bool × Nat :=
  (opAccepted (attempts 0) [200, 204], 1)

/-- `ReportMetrics`: a single `Do` call (no retry), accepting 200/201. -/
def reportMetricsTransport (attempts : Nat → AttemptRes) : Bool × Nat :=
  (opAccepted (attempts 0) [200, 201], 1)

/-- `SendEvent`: a single `Do` call (no retry), accepting 200/201. -/
def sendEventTransport (attempts : Nat → AttemptRes) : Bool × Nat :=
  (opAccepted (attempts 0) [200, 201], 1)

/-! ### Agent local configuration (`agent.LoadConfig`)

The YAML decoding of the file is the unmodelled collaborator; it maps an
absent field and an explicit zero value to the same decoded struct, so
`LoadConfig = applyConfigDefaults ∘ decode`.  `time.Duration` is
nanoseconds. -/

/-- `agent.VPSieConfig`. -/
structure VPSieConfig where
  apiURL : String
  apiKeyFile : String
  loadBalancerID : String
  pollInterval : Int
deriving DecidableEq, Repr

/-- `agent.EnvoySettings`. -/
structure EnvoySettings where
  configPath : String
  adminAddress : String
  binaryPath : String
  pidFile : String
  adminPort : Int
  maxConnections : Int
deriving DecidableEq, Repr

/-- `agent.LoggingConfig`. -/
structure LoggingConfig where
  level : String
  format : String
deriving DecidableEq, Repr

/-- `agent.Config`. -/
structure AgentConfig where
  envoy : EnvoySettings
  logging : LoggingConfig
  vpsie : VPSieConfig
deriving DecidableEq, Repr

/-- One second of `time.Duration`, in nanoseconds. -/
def durationSecond : Int := 1000000000

/-- The default section of `agent.LoadConfig`, applied to the decoded
struct. -/
def applyConfigDefaults (c : AgentConfig) : AgentConfig where
  envoy :=
    { configPath := c.envoy.configPath
      adminAddress := if c.envoy.adminAddress = "" then "127.0.0.1:9901"
        else c.envoy.adminAddress
      binaryPath := if c.envoy.binaryPath = "" then "/usr/bin/envoy"
        else c.envoy.binaryPath
      pidFile := if c.envoy.pidFile = "" then "/var/run/envoy.pid"
        else c.envoy.pidFile
      adminPort := if c.envoy.adminPort = 0 then 9901 else c.envoy.adminPort
      maxConnections := if c.envoy.maxConnections = 0 then 50000
        else c.envoy.maxConnections }
  logging :=
    { level := if c.logging.level = "" then "info" else c.logging.level
      format := if c.logging.format = "" then "json" else c.logging.format }
  vpsie :=
    { c.vpsie with
      pollInterval := if c.vpsie.pollInterval = 0 then 30 * durationSecond
        else c.vpsie.pollInterval }

/-! ### Derived paths and claim-level predicates -/

/-- The live listeners file, `<configDir>/listeners.yaml`. -/
def listenersPath (cm : ConfigManager) : String :=
  goJoin cm.configDir "listeners.yaml"

/-- The live clusters file, `<configDir>/clusters.yaml`. -/
def clustersPath (cm : ConfigManager) : String :=
  goJoin cm.configDir "clusters.yaml"

/-- The backup copy of the listeners file,
`<configDir>/.backup/listeners.yaml`. -/
def backupListenersPath (cm : ConfigManager) : String :=
  goJoin (goJoin cm.configDir ".backup") "listeners.yaml"

/-- The backup copy of the clusters file,
`<configDir>/.backup/clusters.yaml`. -/
def backupClustersPath (cm : ConfigManager) : String :=
  goJoin (goJoin cm.configDir ".backup") "clusters.yaml"

/-- The hostname family named by the SSRF claim: `localhost`, hosts
beginning `127.`, `::1`, and IP literals inside the private ranges
(10.0.0.0/8, 172.16.0.0/12, 192.168.0.0/16, 169.254.0.0/16, fd00::/8,
fe80::/10) as classified by `net.ParseIP`. -/
def hostInClaimSet (net : NetEnv) (h : String) : Bool :=
  (h == "localhost" || isPrefixList "127.".data h.data || h == "::1") ||
    (match net.parseIP h with
     | some ip => inPrivateRanges ip
     | none => false)

/-! ### Concrete fixtures used by counterexamples and witnesses -/

/-- A validator environment over an empty filesystem: no IP literals, no
symlinks, working directory `/`. -/
def envNoSym : Env := ⟨"/", fun _ => false, fun _ => .notExist⟩

/-- A healthy backend at 10.0.0.1:8080 (scenario S1 of the spec). -/
def backendW : Backend := ⟨"be-1", "10.0.0.1", "", 8080, 0, true⟩

/-- The HTTP load balancer of scenario S1. -/
def lbHTTP : LoadBalancer :=
  ⟨"lb-1", "t", "http", 80, "round_robin", [backendW], none, none, none, 0, 0, 0⟩

/-- An otherwise-valid load balancer whose identifier contains a space
(so it violates the declared `[A-Za-z0-9_-]+` format). -/
def lbSpaceId : LoadBalancer :=
  ⟨"lb 123", "t", "http", 80, "round_robin", [backendW], none, none, none, 0, 0, 0⟩

/-- The "valid HTTPS load balancer with TLS" input of
`loadbalancer_test.go`: certificate material under `/etc/certs`, which
is outside the trusted `/etc/vpsie-lb/certs` directory. -/
def lbHTTPSOutsideCerts : LoadBalancer :=
  ⟨"lb-123", "test-lb", "https", 443, "least_request", [backendW], none,
    some ⟨"/etc/certs/cert.pem", "/etc/certs/key.pem", "", "TLSv1.2", "", [], []⟩,
    none, 0, 0, 0⟩

/-- A config manager rooted at `/etc/envoy` (parent `/etc`). -/
def cmEtcEnvoy : ConfigManager := ⟨"/etc/envoy", "/etc"⟩

/-- A config manager rooted at `/etc/vpsie-lb/envoy`. -/
def cmVpsie : ConfigManager := ⟨"/etc/vpsie-lb/envoy", "/etc/vpsie-lb"⟩

/-- A filesystem holding the two managed files of `cmEtcEnvoy`, the
listeners file with mode 0600. -/
def fsTwoFiles : Fs := fun p =>
  if p = "/etc/envoy/listeners.yaml" then some ⟨[1], 0o600⟩
  else if p = "/etc/envoy/clusters.yaml" then some ⟨[2], 0o644⟩
  else none

/-- Name resolution that recognises the single literal `10.1.2.3`. -/
def netTenDot : NetEnv :=
  ⟨fun h => if h = "10.1.2.3" then some (.v4 10 1 2 3) else none, fun _ => none⟩

/-- URL parsing that recognises the single base URL `https://10.1.2.3/`. -/
def parseURLTenDot : String → Option ParsedURL := fun s =>
  if s = "https://10.1.2.3/" then some ⟨"https", "10.1.2.3"⟩ else none

/-- A constant fingerprint function (stands in for SHA-256 over JSON in
witnesses; only its determinism matters). -/
def hashW : LoadBalancer → String := fun _ => "h1"

/-- A renderer that always produces a fixed document pair. -/
def genW : LoadBalancer → Option EnvoyConfig := fun _ => some ⟨[3], [4]⟩

/-- Agent state over an empty filesystem, fresh reloader, no fingerprint. -/
def stEmptyW : AgentSt := ⟨fun _ => none, newReloader "envoy" "boot" "pid", ""⟩

/-- Agent state whose filesystem holds the two managed files of
`cmEtcEnvoy`. -/
def stTwoFilesW : AgentSt := ⟨fsTwoFiles, newReloader "envoy" "boot" "pid", ""⟩

/-- Attempt oracle: first attempt an HTTP 500 with body 7, then an
HTTP 200 with body 8. -/
def attemptsRetryW : Nat → AttemptRes := fun i =>
  if i = 0 then .resp 500 7 else .resp 200 8

/-- Attempt oracle: every attempt succeeds with an HTTP 200. -/
def attemptsOkW : Nat → AttemptRes := fun _ => .resp 200 0

/-- A decoded agent config file whose optional fields are all zero. -/
def cfgZeroW : AgentConfig :=
  ⟨⟨"/etc/envoy", "", "", "", 0, 0⟩, ⟨"", ""⟩, ⟨"https://api.vpsie.com", "/k", "lb-1", 0⟩⟩

/-! ## Theorems -/

/-! ### Filesystem algebra -/

theorem fsWrite_ne (fs : Fs) (p : String) (d : List Nat) (m : Nat) (q : String)
    (h : q ≠ p) : fsWrite fs p d m q = fs q := by
  simp [fsWrite, h]

theorem fsWrite_self (fs : Fs) (p : String) (d : List Nat) (m : Nat) :
    fsWrite fs p d m p =
      some ⟨d, match fs p with | some f => f.mode | none => m⟩ := by
  simp [fsWrite]

theorem fsWrite_self_content (fs : Fs) (p : String) (d : List Nat) (m : Nat) :
    (fsWrite fs p d m p).map FileRec.content = some d := by
  simp [fsWrite]

theorem fsRename_ne (fs : Fs) (src dst q : String) (h1 : q ≠ dst) (h2 : q ≠ src) :
    fsRename fs src dst q = fs q := by
  simp [fsRename, h1, h2]

theorem fsRename_dst (fs : Fs) (src dst : String) :
    fsRename fs src dst dst = fs src := by
  simp [fsRename]

theorem copyFileSkip_ne (fs : Fs) (src dst : String) (m : Nat) (q : String)
    (h : q ≠ dst) : copyFileSkip fs src dst m q = fs q := by
  unfold copyFileSkip fsRead
  cases fs src <;> simp [fsWrite, h]

theorem copyFileSkip_dst (fs : Fs) (src dst : String) (m : Nat) (f : FileRec)
    (h : fs src = some f) :
    copyFileSkip fs src dst m dst =
      some ⟨f.content, match fs dst with | some g => g.mode | none => m⟩ := by
  unfold copyFileSkip fsRead
  rw [h]
  simp [fsWrite]

theorem copyFileSkip_missing (fs : Fs) (src dst : String) (m : Nat)
    (h : fs src = none) : copyFileSkip fs src dst m = fs := by
  unfold copyFileSkip fsRead
  rw [h]

/-! ### C1 — store path safety -/

/-- C1: for every path `p` handed to the store's atomic write (the sole
write path of the listeners, clusters and bootstrap files), if the
absolute cleaned form of `p` lies neither under the config directory nor
under its parent, the write fails with the path-escape error and the
filesystem is returned unchanged — no file anywhere is created or
modified. -/
theorem atomicWrite_path_escape (cm : ConfigManager) (evalSym : String → SymlinkRes)
    (cwd p : String) (data : List Nat) (fs : Fs)
    (h : (underDir (goAbs cwd (goClean p)) cm.configDir ||
        underDir (goAbs cwd (goClean p)) cm.baseDir) = false) :
    atomicWrite cm evalSym cwd p data fs =
      (fs, some (.pathEscape (goAbs cwd (goClean p)))) := by
  unfold atomicWrite validatePath
  simp [h]

/-- C1 witness: writing `/etc/passwd` through a store rooted at
`/etc/vpsie-lb/envoy` fails with the path-escape error and leaves the
(empty) filesystem untouched. -/
theorem atomicWrite_path_escape_witness :
    (underDir (goAbs "/" (goClean "/etc/passwd")) cmVpsie.configDir ||
        underDir (goAbs "/" (goClean "/etc/passwd")) cmVpsie.baseDir) = false ∧
    atomicWrite cmVpsie (fun _ => .notExist) "/" "/etc/passwd" [7] (fun _ => none) =
      ((fun _ => none), some (.pathEscape (goAbs "/" (goClean "/etc/passwd")))) :=
  ⟨by decide,
   atomicWrite_path_escape cmVpsie (fun _ => .notExist) "/" "/etc/passwd" [7]
     (fun _ => none) (by decide)⟩

/-! ### C9 — local configuration defaults -/

/-- C9: for every decoded local configuration, the loaded configuration
has a non-zero poll interval, admin address, admin port, max
connections, pid file, binary path, log level and log format; an
explicit zero poll interval or max connections receives the default
(30 s, 50000), exactly as an absent field would (YAML decoding maps
both to the zero value, so they are indistinguishable at the public
interface). -/
theorem loadConfig_defaults_nonzero (c : AgentConfig) :
    (applyConfigDefaults c).vpsie.pollInterval ≠ 0 ∧
    (applyConfigDefaults c).envoy.adminAddress ≠ "" ∧
    (applyConfigDefaults c).envoy.adminPort ≠ 0 ∧
    (applyConfigDefaults c).envoy.maxConnections ≠ 0 ∧
    (applyConfigDefaults c).envoy.pidFile ≠ "" ∧
    (applyConfigDefaults c).envoy.binaryPath ≠ "" ∧
    (applyConfigDefaults c).logging.level ≠ "" ∧
    (applyConfigDefaults c).logging.format ≠ "" ∧
    (c.vpsie.pollInterval = 0 →
      (applyConfigDefaults c).vpsie.pollInterval = 30 * durationSecond) ∧
    (c.envoy.maxConnections = 0 →
      (applyConfigDefaults c).envoy.maxConnections = 50000) := by
  refine ⟨?_, ?_, ?_, ?_, ?_, ?_, ?_, ?_, ?_, ?_⟩ <;>
    · simp only [applyConfigDefaults]
      split_ifs with h <;> simp_all [durationSecond]

/-- C9 witness: a decoded file with every optional field zero receives
the poll-interval and max-connections defaults. -/
theorem loadConfig_defaults_nonzero_witness :
    (applyConfigDefaults cfgZeroW).vpsie.pollInterval = 30 * durationSecond ∧
    (applyConfigDefaults cfgZeroW).envoy.maxConnections = 50000 :=
  ⟨(loadConfig_defaults_nonzero cfgZeroW).2.2.2.2.2.2.2.2.1 rfl,
   (loadConfig_defaults_nonzero cfgZeroW).2.2.2.2.2.2.2.2.2 rfl⟩

/-! ### C3 — epochs across Reload calls, with int32 wraparound -/

theorem int32ToSigned_natCast (m : Nat) (hm : m < 2 ^ 32) :
    int32ToSigned (m : Int32) =
      if m < 2 ^ 31 then (m : Int) else (m : Int) - 2 ^ 32 := by
  unfold int32ToSigned
  rw [ZMod.val_natCast, Nat.mod_eq_of_lt (by exact_mod_cast hm)]

theorem runReloads_success_epochs (b c p : String) (e : Int32)
    (outcomes : List Bool) :
    successEpochs (runReloads ⟨b, c, p, e⟩ outcomes).1 =
      (List.range (outcomes.count true)).map
        (fun i : Nat => int32ToSigned (e + 1 + (i : Int32))) := by
  induction outcomes generalizing e with
  | nil => simp [runReloads, successEpochs]
  | cons ok rest ih =>
    cases ok with
    | false =>
      have he : e + 1 - 1 = e := by ring
      have hstep : (⟨b, c, p, e⟩ : Reloader).reload false =
          (⟨b, c, p, e⟩, ⟨b, c, int32ToSigned (e + 1), 10⟩, false) := by
        simp [Reloader.reload, he]
      simp only [runReloads, hstep]
      have hc : (false :: rest).count true = rest.count true := by simp
      rw [hc]
      simpa [successEpochs] using ih e
    | true =>
      have hstep : (⟨b, c, p, e⟩ : Reloader).reload true =
          (⟨b, c, p, e + 1⟩, ⟨b, c, int32ToSigned (e + 1), 10⟩, true) := by
        simp [Reloader.reload]
      simp only [runReloads, hstep]
      have hc : (true :: rest).count true = rest.count true + 1 := by simp
      rw [hc, List.range_succ_eq_map]
      have hhead : successEpochs ((int32ToSigned (e + 1), true) ::
            (runReloads ⟨b, c, p, e + 1⟩ rest).1) =
          int32ToSigned (e + 1) ::
            successEpochs (runReloads ⟨b, c, p, e + 1⟩ rest).1 := by
        simp [successEpochs]
      rw [hhead, ih (e + 1)]
      simp only [List.map_cons, Nat.cast_zero, add_zero, List.map_map]
      refine congrArg (List.cons _) ?_
      apply List.map_congr_left
      intro i _
      simp only [Function.comp]
      refine congrArg int32ToSigned ?_
      push_cast
      ring

theorem runReloads_epoch_arg (i : Nat) (hi : 1 + i < 2 ^ 32) :
    int32ToSigned ((0 : Int32) + 1 + (i : Int32)) =
      if 1 + i < 2 ^ 31 then ((1 + i : Nat) : Int)
      else ((1 + i : Nat) : Int) - 2 ^ 32 := by
  have hcast : (0 : Int32) + 1 + (i : Int32) = ((1 + i : Nat) : Int32) := by
    push_cast
    ring
  rw [hcast, int32ToSigned_natCast (1 + i) hi]

/-- C3 counterexample: the epoch counter is a Go `atomic.Int32`, which
wraps: on a sequence of 2^31 successful Reload calls, the 2^31-th
success passes `--restart-epoch` −2^31 after the previous success passed
2^31 − 1, so the passed epochs are not strictly increasing — refuting
the original any-sequence monotonicity claim. -/
theorem reload_epoch_wraps :
    ¬ (successEpochs (runReloads (newReloader "envoy" "boot" "pid")
        (List.replicate (2 ^ 31) true)).1).Pairwise (· < ·) := by
  intro hp
  have hcount : (List.replicate (2 ^ 31) true).count true = 2 ^ 31 :=
    List.count_replicate_self true (2 ^ 31)
  have h := runReloads_success_epochs "envoy" "boot" "pid" 0
    (List.replicate (2 ^ 31) true)
  rw [show newReloader "envoy" "boot" "pid" =
      (⟨"envoy", "boot", "pid", (0 : Int32)⟩ : Reloader) from rfl, h, hcount]
    at hp
  rw [List.pairwise_iff_get] at hp
  have h12 := hp
    ⟨2 ^ 31 - 2, by simp only [List.length_map, List.length_range]; decide⟩
    ⟨2 ^ 31 - 1, by simp only [List.length_map, List.length_range]; decide⟩
    (by rw [Fin.mk_lt_mk]; decide)
  simp only [List.get_eq_getElem, List.getElem_map, List.getElem_range] at h12
  rw [runReloads_epoch_arg (2 ^ 31 - 2) (by decide),
    runReloads_epoch_arg (2 ^ 31 - 1) (by decide),
    if_pos (by decide), if_neg (by decide)] at h12
  norm_num at h12

/-- C3 amended: the epoch is a wrapping 32-bit counter.  Across any
sequence of `Reload` calls from a fresh driver with fewer than 2^31
successes, the `--restart-epoch` values of the successful calls are
exactly 1, 2, …, k (strictly increasing, starting from 1); at the
2^31-th success the value wraps to −2^31.  Unconditionally, any `Reload`
call whose spawn fails leaves `GetCurrentEpoch` at exactly its pre-call
value (the +1/−1 round trip is wrap-invariant). -/
theorem reload_epoch_monotone (b c p : String) (outcomes : List Bool)
    (hk : outcomes.count true < 2 ^ 31) :
    successEpochs (runReloads (newReloader b c p) outcomes).1 =
      (List.range (outcomes.count true)).map (fun i : Nat => (i : Int) + 1) ∧
    (successEpochs (runReloads (newReloader b c p) outcomes).1).Pairwise (· < ·) ∧
    ∀ r : Reloader, (r.reload false).1.getCurrentEpoch = r.getCurrentEpoch := by
  have h := runReloads_success_epochs b c p 0 outcomes
  have h' : successEpochs (runReloads (newReloader b c p) outcomes).1 =
      (List.range (outcomes.count true)).map (fun i : Nat => (i : Int) + 1) := by
    rw [newReloader, h]
    apply List.map_congr_left
    intro i hi
    have hi' : i < outcomes.count true := List.mem_range.mp hi
    rw [runReloads_epoch_arg i (by omega), if_pos (by omega)]
    push_cast
    ring
  refine ⟨h', ?_, ?_⟩
  · rw [h']
    refine List.Pairwise.map _ ?_ (List.pairwise_lt_range _)
    intro a b hab
    omega
  · intro r
    have he : r.currentEpoch + 1 - 1 = r.currentEpoch := by ring
    simp [Reloader.reload, Reloader.getCurrentEpoch, he]

/-- C3 witness: a success, a failure, a success from a fresh driver pass
epochs 1 and 2 on the successful calls. -/
theorem reload_epoch_monotone_witness :
    ([true, false, true].count true < 2 ^ 31) ∧
    successEpochs (runReloads (newReloader "envoy" "boot" "pid")
        [true, false, true]).1 =
      (List.range ([true, false, true].count true)).map
        (fun i : Nat => (i : Int) + 1) :=
  ⟨by decide,
   (reload_epoch_monotone "envoy" "boot" "pid" [true, false, true] (by decide)).1⟩

/-! ### C7 — SSRF closure of client construction -/

theorem hostInClaimSet_private (net : NetEnv) (h : String)
    (hbad : hostInClaimSet net h = true) :
    isPrivateOrLocalhost net h = true := by
  unfold hostInClaimSet at hbad
  unfold isPrivateOrLocalhost
  cases htxt : (h == "localhost" || isPrefixList "127.".data h.data ||
      h == "::1") with
  | true => simp [htxt]
  | false =>
    rw [htxt] at hbad
    simp only [Bool.false_or] at hbad
    simp only [htxt, Bool.false_eq_true, if_false]
    revert hbad
    cases net.parseIP h with
    | none => intro hbad; cases hbad
    | some ip => intro hbad; exact hbad

/-- C7: outside test mode, constructing the client with a base URL whose
hostname is `localhost`, begins with `127.`, is `::1`, or is an IP
literal inside 10.0.0.0/8, 172.16.0.0/12, 192.168.0.0/16,
169.254.0.0/16, fd00::/8 or fe80::/10, fails: no client value is
produced (and the request operations all require a client, so no HTTP
request can be issued from a failed construction). -/
theorem newVPSieClient_ssrf_rejects (net : NetEnv)
    (parseURL : String → Option ParsedURL) (apiKey baseURL lbID : String)
    (u : ParsedURL) (hu : parseURL baseURL = some u)
    (hbad : hostInClaimSet net u.hostname = true) :
    constructionFailed (newVPSieClient false net parseURL apiKey baseURL lbID) =
      true := by
  have hpl := hostInClaimSet_private net u.hostname hbad
  unfold newVPSieClient
  rw [hu]
  cases hsch : (u.scheme == "https" || u.scheme == "http") with
  | false => simp [hsch, constructionFailed]
  | true => simp [hsch, validateHostname, hpl, constructionFailed]

/-- C7 witness: `https://10.1.2.3/` (an address in 10.0.0.0/8) is
rejected by construction. -/
theorem newVPSieClient_ssrf_rejects_witness :
    parseURLTenDot "https://10.1.2.3/" = some ⟨"https", "10.1.2.3"⟩ ∧
    hostInClaimSet netTenDot "10.1.2.3" = true ∧
    constructionFailed (newVPSieClient false netTenDot parseURLTenDot "key"
      "https://10.1.2.3/" "lb-1") = true :=
  ⟨by decide, by decide,
   newVPSieClient_ssrf_rejects netTenDot parseURLTenDot "key" "https://10.1.2.3/"
     "lb-1" ⟨"https", "10.1.2.3"⟩ (by decide) (by decide)⟩

/-! ### C6 — identifier and name format are not enforced -/

/-- C6 counterexample: an otherwise-valid load balancer whose identifier
contains a space (so it fails the declared `[A-Za-z0-9_-]+` format while
staying within 64 characters) is accepted by `Validate` — it returns
nil, where the claim requires a validation error. -/
theorem validate_accepts_malformed_id :
    idPatternMatch "lb 123" = false ∧
    ("lb 123".length ≤ 64) ∧
    LoadBalancer.validate envNoSym lbSpaceId = none := by decide

/-- C6 amended: `validateBasicFields` accepts exactly non-empty id,
non-empty name, port in [1, 65535] and a protocol among http/https/tcp;
the identifier character-set and 64-character limit and the
255-character name limit of the declared formats are not checked. -/
theorem validateBasicFields_characterization (lb : LoadBalancer) :
    lb.validateBasicFields = none ↔
      (lb.id ≠ "" ∧ lb.name ≠ "" ∧ 0 < lb.port ∧ lb.port ≤ 65535 ∧
        (lb.protocol = "http" ∨ lb.protocol = "https" ∨ lb.protocol = "tcp")) := by
  unfold LoadBalancer.validateBasicFields
  split_ifs with h1 h2 h3 h4 <;> simp_all <;> first | omega | tauto

/-! ### C2 — validation returns errors beyond the sentinel set -/

theorem validateBasicFields_extended (lb : LoadBalancer) :
    ∀ e ∈ lb.validateBasicFields, VErr.inExtendedSet e = true := by
  intro e he
  rw [Option.mem_def] at he
  unfold LoadBalancer.validateBasicFields at he
  split_ifs at he
  all_goals first
    | exact Option.noConfusion he
    | (injection he with h; subst h; rfl)

theorem backend_validate_extended (env : Env) (b : Backend) :
    ∀ e ∈ b.validate env, VErr.inExtendedSet e = true := by
  intro e he
  rw [Option.mem_def] at he
  unfold Backend.validate at he
  split_ifs at he
  all_goals first
    | exact Option.noConfusion he
    | (injection he with h; subst h; rfl)

theorem firstBackendErr_extended (env : Env) (bs : List Backend) :
    ∀ e ∈ firstBackendErr env bs, VErr.inExtendedSet e = true := by
  induction bs with
  | nil => intro e he; cases he
  | cons b rest ih =>
    intro e he
    rw [Option.mem_def] at he
    unfold firstBackendErr at he
    cases hb : b.validate env with
    | some e0 =>
      rw [hb] at he
      injection he with h
      subst h
      exact backend_validate_extended env b e0 (Option.mem_def.mpr hb)
    | none =>
      rw [hb] at he
      exact ih e (Option.mem_def.mpr he)

theorem healthCheck_validate_extended (h : HealthCheck) :
    ∀ e ∈ h.validate, VErr.inExtendedSet e = true := by
  intro e he
  rw [Option.mem_def] at he
  unfold HealthCheck.validate at he
  split_ifs at he
  all_goals first
    | exact Option.noConfusion he
    | (injection he with h; subst h; rfl)

theorem tls_validate_extended (env : Env) (t : TLSConfig) :
    ∀ e ∈ t.validate env, VErr.inExtendedSet e = true := by
  intro e he
  rw [Option.mem_def] at he
  unfold TLSConfig.validate at he
  repeat' split at he
  all_goals first
    | exact Option.noConfusion he
    | (injection he with h; subst h; rfl)

theorem validateBackends_extended (env : Env) (lb : LoadBalancer) :
    ∀ e ∈ lb.validateBackends env, VErr.inExtendedSet e = true := by
  intro e he
  rw [Option.mem_def] at he
  unfold LoadBalancer.validateBackends at he
  split_ifs at he with h1
  · injection he with h
    subst h
    rfl
  · exact firstBackendErr_extended env lb.backends e (Option.mem_def.mpr he)

theorem validateTLSConfig_extended (env : Env) (lb : LoadBalancer) :
    ∀ e ∈ lb.validateTLSConfig env, VErr.inExtendedSet e = true := by
  intro e he
  rw [Option.mem_def] at he
  unfold LoadBalancer.validateTLSConfig at he
  split_ifs at he with h1
  · injection he with h
    subst h
    rfl
  · cases ht : lb.tlsConfig with
    | some t =>
      rw [ht] at he
      exact tls_validate_extended env t e (Option.mem_def.mpr he)
    | none => rw [ht] at he; cases he

theorem validateHealthCheck_extended (lb : LoadBalancer) :
    ∀ e ∈ lb.validateHealthCheck, VErr.inExtendedSet e = true := by
  intro e he
  rw [Option.mem_def] at he
  unfold LoadBalancer.validateHealthCheck at he
  cases hh : lb.healthCheck with
  | some h =>
    rw [hh] at he
    exact healthCheck_validate_extended h e (Option.mem_def.mpr he)
  | none => rw [hh] at he; cases he

/-- C2 amended: `LoadBalancer.Validate` (a total function — it cannot
panic) returns either nil or exactly one error from the closed sentinel
set of §7 extended by the three wrapped TLS path-validation error
families (`invalid certificate path`, `invalid private key path`,
`invalid CA certificate path`); `ErrInvalidAlgorithm` is never
returned.  The original claim's closed set fails because the TLS path
checks wrap their failures with `fmt.Errorf` instead of returning a
sentinel. -/
theorem validate_errors_in_extended_set (env : Env) (lb : LoadBalancer) :
    ∀ e ∈ lb.validate env, VErr.inExtendedSet e = true := by
  intro e he
  rw [Option.mem_def] at he
  unfold LoadBalancer.validate at he
  cases hb : lb.validateBasicFields with
  | some e0 =>
    rw [hb] at he
    injection he with h
    subst h
    exact validateBasicFields_extended lb e0 (Option.mem_def.mpr hb)
  | none =>
    rw [hb] at he
    cases hbe : lb.validateBackends env with
    | some e0 =>
      rw [hbe] at he
      injection he with h
      subst h
      exact validateBackends_extended env lb e0 (Option.mem_def.mpr hbe)
    | none =>
      rw [hbe] at he
      cases htl : lb.validateTLSConfig env with
      | some e0 =>
        rw [htl] at he
        injection he with h
        subst h
        exact validateTLSConfig_extended env lb e0 (Option.mem_def.mpr htl)
      | none =>
        rw [htl] at he
        exact validateHealthCheck_extended lb e (Option.mem_def.mpr he)

/-- C2 counterexample: on the HTTPS input of the repository's own test
suite ("valid HTTPS load balancer with TLS", certificate material under
`/etc/certs`), `Validate` returns the wrapped invalid-certificate-path
error, which is not one of the sentinel errors — refuting the claimed
closed set. -/
theorem validate_returns_non_sentinel :
    LoadBalancer.validate envNoSym lbHTTPSOutsideCerts =
      some (.invalidCertPath (.outsideAllowed "/etc/vpsie-lb/certs")) ∧
    VErr.isSentinel (.invalidCertPath (.outsideAllowed "/etc/vpsie-lb/certs")) =
      false ∧
    VErr.inClaimedClosedSet
      (.invalidCertPath (.outsideAllowed "/etc/vpsie-lb/certs")) = false := by
  decide

/-- C2 witness: every error of the extended family on a concrete input —
the wrapped certificate-path error produced on the test-suite HTTPS
input lies in the extended set. -/
theorem validate_errors_in_extended_set_witness :
    VErr.inExtendedSet
      (.invalidCertPath (.outsideAllowed "/etc/vpsie-lb/certs")) = true :=
  validate_errors_in_extended_set envNoSym lbHTTPSOutsideCerts
    (.invalidCertPath (.outsideAllowed "/etc/vpsie-lb/certs")) (by decide)

/-! ### C8 — GET retry policy -/

/-- C8 amended: only the GET fetch goes through the retry loop (every
other operation issues exactly one request); within the loop an attempt
is re-tried exactly when it returned a network error or a status ≥ 500,
at most 4 attempts are made (3 retries), the sleeps between consecutive
attempts are 2^0 = 1 s, 2^1 = 2 s, 2^2 = 4 s, the body of every
retried-and-discarded response is closed — but, against the original
claim, not drained — before the next attempt, and the first attempt
yielding a non-5xx response without a network error is the one
returned. -/
theorem doWithRetry_characterization (attempts : Nat → AttemptRes) :
    1 ≤ (doWithRetry attempts 3).2.2 ∧
    (doWithRetry attempts 3).2.2 ≤ 4 ∧
    (doWithRetry attempts 3).1 = attempts ((doWithRetry attempts 3).2.2 - 1) ∧
    ((List.range ((doWithRetry attempts 3).2.2 - 1)).all
      (fun i => !retrySuccess (attempts i))) = true ∧
    ((doWithRetry attempts 3).2.2 < 4 →
      retrySuccess (attempts ((doWithRetry attempts 3).2.2 - 1)) = true) ∧
    (doWithRetry attempts 3).2.1 =
      (List.range ((doWithRetry attempts 3).2.2 - 1)).flatMap
        (fun i => closeEvents (attempts i) ++ [HttpEvent.sleep (2 ^ i)]) ∧
    (updateLoadBalancerStatusTransport attempts).2 = 1 ∧
    (updateBackendStatusTransport attempts).2 = 1 ∧
    (reportMetricsTransport attempts).2 = 1 ∧
    (sendEventTransport attempts).2 = 1 := by
  cases h0 : retrySuccess (attempts 0) with
  | true =>
    have hrun : doWithRetry attempts 3 = (attempts 0, [], 1) := by
      simp [doWithRetry, doWithRetryGo, h0]
    simp [hrun, h0, updateLoadBalancerStatusTransport,
      updateBackendStatusTransport, reportMetricsTransport, sendEventTransport]
  | false =>
    cases h1 : retrySuccess (attempts 1) with
    | true =>
      have hrun : doWithRetry attempts 3 =
          (attempts 1, closeEvents (attempts 0) ++ [HttpEvent.sleep 1], 2) := by
        simp [doWithRetry, doWithRetryGo, h0, h1]
      simp [hrun, h0, h1, List.range_succ, updateLoadBalancerStatusTransport,
        updateBackendStatusTransport, reportMetricsTransport, sendEventTransport]
    | false =>
      cases h2 : retrySuccess (attempts 2) with
      | true =>
        have hrun : doWithRetry attempts 3 =
            (attempts 2, closeEvents (attempts 0) ++ HttpEvent.sleep 1 ::
              (closeEvents (attempts 1) ++ [HttpEvent.sleep 2]), 3) := by
          simp [doWithRetry, doWithRetryGo, h0, h1, h2]
        simp [hrun, h0, h1, h2, List.range_succ, updateLoadBalancerStatusTransport,
          updateBackendStatusTransport, reportMetricsTransport, sendEventTransport]
      | false =>
        have hrun : doWithRetry attempts 3 =
            ((attempts 3), closeEvents (attempts 0) ++ HttpEvent.sleep 1 ::
              (closeEvents (attempts 1) ++ HttpEvent.sleep 2 ::
                (closeEvents (attempts 2) ++ [HttpEvent.sleep 4])), 4) := by
          simp [doWithRetry, doWithRetryGo, h0, h1, h2]
        simp [hrun, h0, h1, h2, List.range_succ, updateLoadBalancerStatusTransport,
          updateBackendStatusTransport, reportMetricsTransport, sendEventTransport]

/-- C8 witness: with an oracle that answers 200 immediately, the loop
stops short of 4 attempts and the returned attempt is the successful
one. -/
theorem doWithRetry_characterization_witness :
    retrySuccess (attemptsOkW ((doWithRetry attemptsOkW 3).2.2 - 1)) = true :=
  (doWithRetry_characterization attemptsOkW).2.2.2.2.1 (by decide)

/-- C8 counterexample: a 500 followed by a 200 — the discarded first
response's body is closed before the retry but never drained, so the
claim's "drained and closed" fails on the drain half. -/
theorem retry_discards_without_drain :
    (doWithRetry attemptsRetryW 3).2.1 =
      [HttpEvent.closeBody 7, HttpEvent.sleep 1] ∧
    HttpEvent.drainBody 7 ∉ (doWithRetry attemptsRetryW 3).2.1 := by decide

/-! ### C10 — backup/restore round trip -/

theorem copy_pairs_roundtrip (fs : Fs) (lL lC bL bC : String) (c1 c2 : FileRec)
    (hL : fs lL = some c1) (hC : fs lC = some c2)
    (h1 : lL ≠ lC) (h2 : lL ≠ bL) (h3 : lL ≠ bC)
    (h4 : lC ≠ bL) (h5 : lC ≠ bC) (h6 : bL ≠ bC) :
    copyFileSkip (copyFileSkip
        (copyFileSkip (copyFileSkip fs lL bL 0o600) lC bC 0o600)
        bL lL 0o644) bC lC 0o644 lL = some c1 ∧
    copyFileSkip (copyFileSkip
        (copyFileSkip (copyFileSkip fs lL bL 0o600) lC bC 0o600)
        bL lL 0o644) bC lC 0o644 lC = some c2 ∧
    copyFileSkip (copyFileSkip fs lL bL 0o600) lC bC 0o600 bL =
      some ⟨c1.content, match fs bL with | some g => g.mode | none => 0o600⟩ ∧
    copyFileSkip (copyFileSkip fs lL bL 0o600) lC bC 0o600 bC =
      some ⟨c2.content, match fs bC with | some g => g.mode | none => 0o600⟩ := by
  have hfs1_lC : copyFileSkip fs lL bL 0o600 lC = some c2 := by
    rw [copyFileSkip_ne _ _ _ _ _ h4, hC]
  have hfs1_bC : copyFileSkip fs lL bL 0o600 bC = fs bC :=
    copyFileSkip_ne _ _ _ _ _ h6.symm
  have hA_lL :
      copyFileSkip (copyFileSkip fs lL bL 0o600) lC bC 0o600 lL = some c1 := by
    rw [copyFileSkip_ne _ _ _ _ _ h3, copyFileSkip_ne _ _ _ _ _ h2, hL]
  have hA_lC :
      copyFileSkip (copyFileSkip fs lL bL 0o600) lC bC 0o600 lC = some c2 := by
    rw [copyFileSkip_ne _ _ _ _ _ h5, hfs1_lC]
  have hA_bL :
      copyFileSkip (copyFileSkip fs lL bL 0o600) lC bC 0o600 bL =
        some ⟨c1.content,
          match fs bL with | some g => g.mode | none => 0o600⟩ := by
    rw [copyFileSkip_ne _ _ _ _ _ h6]
    exact copyFileSkip_dst fs lL bL 0o600 c1 hL
  have hA_bC :
      copyFileSkip (copyFileSkip fs lL bL 0o600) lC bC 0o600 bC =
        some ⟨c2.content,
          match fs bC with | some g => g.mode | none => 0o600⟩ := by
    have h := copyFileSkip_dst (copyFileSkip fs lL bL 0o600) lC bC 0o600 c2 hfs1_lC
    rw [hfs1_bC] at h
    exact h
  have hB_lL :
      copyFileSkip (copyFileSkip (copyFileSkip (copyFileSkip fs lL bL 0o600)
        lC bC 0o600) bL lL 0o644) bC lC 0o644 lL = some c1 := by
    rw [copyFileSkip_ne _ _ _ _ _ h1]
    have h := copyFileSkip_dst
      (copyFileSkip (copyFileSkip fs lL bL 0o600) lC bC 0o600) bL lL 0o644 _ hA_bL
    rw [hA_lL] at h
    exact h
  have hB_bC :
      copyFileSkip (copyFileSkip (copyFileSkip fs lL bL 0o600) lC bC 0o600)
        bL lL 0o644 bC =
      copyFileSkip (copyFileSkip fs lL bL 0o600) lC bC 0o600 bC :=
    copyFileSkip_ne _ _ _ _ _ h3.symm
  have hB_lC :
      copyFileSkip (copyFileSkip (copyFileSkip fs lL bL 0o600) lC bC 0o600)
        bL lL 0o644 lC =
      copyFileSkip (copyFileSkip fs lL bL 0o600) lC bC 0o600 lC :=
    copyFileSkip_ne _ _ _ _ _ h1.symm
  have hfinal_lC :
      copyFileSkip (copyFileSkip (copyFileSkip (copyFileSkip fs lL bL 0o600)
        lC bC 0o600) bL lL 0o644) bC lC 0o644 lC = some c2 := by
    have h := copyFileSkip_dst
      (copyFileSkip (copyFileSkip (copyFileSkip fs lL bL 0o600) lC bC 0o600)
        bL lL 0o644) bC lC 0o644 _ (hB_bC.trans hA_bC)
    rw [hB_lC, hA_lC] at h
    exact h
  exact ⟨hB_lL, hfinal_lC, hA_bL, hA_bC⟩

/-- C10 amended: when both managed files exist (and the four involved
paths are distinct, as they are for every real config directory), a
backup followed by a restore leaves both live files with exactly their
backup-time content — and, since `os.WriteFile` changes permissions only
when it creates a file, with their prior mode (0644 is applied only when
the restored file did not already exist, 0600 only when the backup copy
did not already exist); a missing managed file is skipped by backup and
a missing backup copy is skipped by restore. -/
theorem backup_restore_roundtrip (cm : ConfigManager) (fs : Fs) (c1 c2 : FileRec)
    (hL : fs (listenersPath cm) = some c1)
    (hC : fs (clustersPath cm) = some c2)
    (h1 : listenersPath cm ≠ clustersPath cm)
    (h2 : listenersPath cm ≠ backupListenersPath cm)
    (h3 : listenersPath cm ≠ backupClustersPath cm)
    (h4 : clustersPath cm ≠ backupListenersPath cm)
    (h5 : clustersPath cm ≠ backupClustersPath cm)
    (h6 : backupListenersPath cm ≠ backupClustersPath cm) :
    restoreConfig cm (backupConfig cm fs) (listenersPath cm) = some c1 ∧
    restoreConfig cm (backupConfig cm fs) (clustersPath cm) = some c2 ∧
    backupConfig cm fs (backupListenersPath cm) =
      some ⟨c1.content,
        match fs (backupListenersPath cm) with
        | some g => g.mode | none => 0o600⟩ ∧
    backupConfig cm fs (backupClustersPath cm) =
      some ⟨c2.content,
        match fs (backupClustersPath cm) with
        | some g => g.mode | none => 0o600⟩ ∧
    (∀ fs0 : Fs, fs0 (listenersPath cm) = none →
      backupConfig cm fs0 (backupListenersPath cm) =
        fs0 (backupListenersPath cm)) ∧
    (∀ fs0 : Fs, fs0 (backupListenersPath cm) = none →
      restoreConfig cm fs0 (listenersPath cm) = fs0 (listenersPath cm)) := by
  have hrt := copy_pairs_roundtrip fs (listenersPath cm) (clustersPath cm)
    (backupListenersPath cm) (backupClustersPath cm) c1 c2 hL hC h1 h2 h3 h4 h5 h6
  refine ⟨hrt.1, hrt.2.1, hrt.2.2.1, hrt.2.2.2, ?_, ?_⟩
  · intro fs0 h0
    show copyFileSkip (copyFileSkip fs0 (listenersPath cm)
        (backupListenersPath cm) 0o600) (clustersPath cm)
        (backupClustersPath cm) 0o600 (backupListenersPath cm) =
      fs0 (backupListenersPath cm)
    rw [copyFileSkip_ne _ _ _ _ _ h6, copyFileSkip_missing fs0 _ _ _ h0]
  · intro fs0 h0
    show copyFileSkip (copyFileSkip fs0 (backupListenersPath cm)
        (listenersPath cm) 0o644) (backupClustersPath cm)
        (clustersPath cm) 0o644 (listenersPath cm) =
      fs0 (listenersPath cm)
    rw [copyFileSkip_ne _ _ _ _ _ h1, copyFileSkip_missing fs0 _ _ _ h0]

/-- C10 witness: for the store rooted at `/etc/envoy` with both managed
files present, the round trip restores the listeners file exactly. -/
theorem backup_restore_roundtrip_witness :
    restoreConfig cmEtcEnvoy (backupConfig cmEtcEnvoy fsTwoFiles)
      (listenersPath cmEtcEnvoy) = some ⟨[1], 0o600⟩ :=
  (backup_restore_roundtrip cmEtcEnvoy fsTwoFiles ⟨[1], 0o600⟩ ⟨[2], 0o644⟩
    (by decide) (by decide) (by decide) (by decide) (by decide) (by decide)
    (by decide) (by decide)).1

/-- C10 counterexample: the listeners file existed with mode 0600, so
the restored live file keeps mode 0600 — `os.WriteFile` only applies the
0644 argument when it creates the file — refuting the claim's "restored
live files written mode 0644". -/
theorem restore_keeps_existing_mode :
    restoreConfig cmEtcEnvoy (backupConfig cmEtcEnvoy fsTwoFiles)
      "/etc/envoy/listeners.yaml" = some ⟨[1], 0o600⟩ ∧
    (0o600 : Nat) ≠ 0o644 := by decide

/-! ### C5 — idempotent reconciliation -/

theorem applyConfig_eq (cm : ConfigManager) (evalSym : String → SymlinkRes)
    (cwd : String) (cfg : EnvoyConfig) (fs : Fs)
    (hvL : validatePath cm evalSym cwd (listenersPath cm) = none)
    (hvC : validatePath cm evalSym cwd (clustersPath cm) = none) :
    applyConfig cm evalSym cwd cfg fs =
      (fsRename (fsWrite (fsRename (fsWrite fs (listenersPath cm ++ ".tmp")
          cfg.listeners 0o644) (listenersPath cm ++ ".tmp") (listenersPath cm))
        (clustersPath cm ++ ".tmp") cfg.clusters 0o644)
        (clustersPath cm ++ ".tmp") (clustersPath cm), none) := by
  have hvL' : validatePath cm evalSym cwd (goJoin cm.configDir "listeners.yaml") =
      none := hvL
  have hvC' : validatePath cm evalSym cwd (goJoin cm.configDir "clusters.yaml") =
      none := hvC
  simp only [applyConfig, writeListeners, writeClusters, writeConfigFile,
    atomicWrite, listenersPath, clustersPath, hvL', hvC']

/-- C5: if two consecutive ticks fetch field-for-field equal
LoadBalancer values (hence the same model value, hence the same
fingerprint), the first tick backs up, renders, writes, reloads and
reports, records the fingerprint, and the second tick is a complete
no-op: same state back, no error, and a trace with no backup, no
render, no file write, no reload attempt and no event. -/
theorem sync_idempotent (env : Env) (cm : ConfigManager) (lb : LoadBalancer)
    (hash : LoadBalancer → String) (gen : LoadBalancer → Option EnvoyConfig)
    (cfg : EnvoyConfig) (st0 : AgentSt)
    (hval : lb.validate env = none)
    (hhash : hash lb ≠ st0.lastConfigHash)
    (hgen : gen lb = some cfg)
    (hvL : validatePath cm env.evalSym env.cwd (listenersPath cm) = none)
    (hvC : validatePath cm env.evalSym env.cwd (clustersPath cm) = none) :
    (syncConfiguration env cm (some lb) hash gen true st0).2.1 = none ∧
    (syncConfiguration env cm (some lb) hash gen true st0).2.2 =
      ⟨true, true, true, true, true⟩ ∧
    (syncConfiguration env cm (some lb) hash gen true st0).1.lastConfigHash =
      hash lb ∧
    ∀ spawnOk2 : Bool,
      syncConfiguration env cm (some lb) hash gen spawnOk2
        (syncConfiguration env cm (some lb) hash gen true st0).1 =
      ((syncConfiguration env cm (some lb) hash gen true st0).1, none,
        TickTrace.none) := by
  rcases happ : applyConfig cm env.evalSym env.cwd cfg (backupConfig cm st0.fs)
    with ⟨fs2, e2⟩
  have he2 : e2 = none := by
    have h := applyConfig_eq cm env.evalSym env.cwd cfg (backupConfig cm st0.fs)
      hvL hvC
    rw [happ] at h
    exact congrArg Prod.snd h
  subst he2
  have hrun : syncConfiguration env cm (some lb) hash gen true st0 =
      (⟨fs2, (st0.reloader.reload true).1, hash lb⟩, none,
        ⟨true, true, true, true, true⟩) := by
    unfold syncConfiguration
    simp only [hval]
    rw [if_neg hhash]
    simp only [hgen, happ, Reloader.reload, if_true]
  refine ⟨by rw [hrun], by rw [hrun], by rw [hrun], ?_⟩
  intro spawnOk2
  rw [hrun]
  unfold syncConfiguration
  simp [hval]

/-- C5 witness: on the S1 input against an empty filesystem, the first
tick applies and restarts, and the second tick is a no-op. -/
theorem sync_idempotent_witness :
    (syncConfiguration envNoSym cmEtcEnvoy (some lbHTTP) hashW genW true
      stEmptyW).2.2 = ⟨true, true, true, true, true⟩ :=
  (sync_idempotent envNoSym cmEtcEnvoy lbHTTP hashW genW ⟨[3], [4]⟩ stEmptyW
    (by decide) (by decide) (by decide) (by decide) (by decide)).2.1

/-! ### C4 — reload failure restores files, epoch and fingerprint -/

/-- C4: if a tick's reload fails after the new files were applied (on a
filesystem whose managed files existed and were backed up by this same
tick), the tick returns the reload error, `RestoreConfig` brings both
managed files back to their pre-tick contents byte-for-byte, the epoch
returns to its pre-call value, the fingerprint is not updated, and the
following tick re-attempts (its trace performs the backup again rather
than short-circuiting). -/
theorem sync_reload_failure_rolls_back (env : Env) (cm : ConfigManager)
    (lb : LoadBalancer) (hash : LoadBalancer → String)
    (gen : LoadBalancer → Option EnvoyConfig) (cfg : EnvoyConfig) (st0 : AgentSt)
    (c1 c2 : FileRec)
    (hval : lb.validate env = none)
    (hhash : hash lb ≠ st0.lastConfigHash)
    (hgen : gen lb = some cfg)
    (hvL : validatePath cm env.evalSym env.cwd (listenersPath cm) = none)
    (hvC : validatePath cm env.evalSym env.cwd (clustersPath cm) = none)
    (hL : st0.fs (listenersPath cm) = some c1)
    (hC : st0.fs (clustersPath cm) = some c2)
    (h1 : listenersPath cm ≠ clustersPath cm)
    (h2 : listenersPath cm ≠ backupListenersPath cm)
    (h3 : listenersPath cm ≠ backupClustersPath cm)
    (h4 : clustersPath cm ≠ backupListenersPath cm)
    (h5 : clustersPath cm ≠ backupClustersPath cm)
    (h6 : backupListenersPath cm ≠ backupClustersPath cm)
    (h7 : backupListenersPath cm ≠ listenersPath cm ++ ".tmp")
    (h8 : backupListenersPath cm ≠ clustersPath cm ++ ".tmp")
    (h9 : backupClustersPath cm ≠ listenersPath cm ++ ".tmp")
    (h10 : backupClustersPath cm ≠ clustersPath cm ++ ".tmp") :
    (syncConfiguration env cm (some lb) hash gen false st0).2.1 =
      some .reloadFailed ∧
    ((syncConfiguration env cm (some lb) hash gen false st0).1.fs
      (listenersPath cm)).map FileRec.content = some c1.content ∧
    ((syncConfiguration env cm (some lb) hash gen false st0).1.fs
      (clustersPath cm)).map FileRec.content = some c2.content ∧
    (syncConfiguration env cm (some lb) hash gen false
      st0).1.reloader.currentEpoch = st0.reloader.currentEpoch ∧
    (syncConfiguration env cm (some lb) hash gen false st0).1.lastConfigHash =
      st0.lastConfigHash ∧
    ∀ spawnOk2 : Bool,
      (syncConfiguration env cm (some lb) hash gen spawnOk2
        (syncConfiguration env cm (some lb) hash gen false
          st0).1).2.2.backedUp = true := by
  have hb := copy_pairs_roundtrip st0.fs (listenersPath cm) (clustersPath cm)
    (backupListenersPath cm) (backupClustersPath cm) c1 c2 hL hC h1 h2 h3 h4 h5 h6
  have hbackL : backupConfig cm st0.fs (backupListenersPath cm) =
      some ⟨c1.content,
        match st0.fs (backupListenersPath cm) with
        | some g => g.mode | none => 0o600⟩ := hb.2.2.1
  have hbackC : backupConfig cm st0.fs (backupClustersPath cm) =
      some ⟨c2.content,
        match st0.fs (backupClustersPath cm) with
        | some g => g.mode | none => 0o600⟩ := hb.2.2.2
  obtain ⟨fsD, happD⟩ :
      ∃ x, applyConfig cm env.evalSym env.cwd cfg (backupConfig cm st0.fs) =
        (x, none) :=
    ⟨_, applyConfig_eq cm env.evalSym env.cwd cfg (backupConfig cm st0.fs) hvL hvC⟩
  have hfsD : fsD = fsRename (fsWrite (fsRename (fsWrite (backupConfig cm st0.fs)
      (listenersPath cm ++ ".tmp") cfg.listeners 0o644)
      (listenersPath cm ++ ".tmp") (listenersPath cm))
      (clustersPath cm ++ ".tmp") cfg.clusters 0o644)
      (clustersPath cm ++ ".tmp") (clustersPath cm) := by
    have h := applyConfig_eq cm env.evalSym env.cwd cfg (backupConfig cm st0.fs)
      hvL hvC
    rw [happD] at h
    exact congrArg Prod.fst h
  have hD_bL : fsD (backupListenersPath cm) =
      backupConfig cm st0.fs (backupListenersPath cm) := by
    rw [hfsD, fsRename_ne _ _ _ _ h4.symm h8, fsWrite_ne _ _ _ _ _ h8,
      fsRename_ne _ _ _ _ h2.symm h7, fsWrite_ne _ _ _ _ _ h7]
  have hD_bC : fsD (backupClustersPath cm) =
      backupConfig cm st0.fs (backupClustersPath cm) := by
    rw [hfsD, fsRename_ne _ _ _ _ h5.symm h10, fsWrite_ne _ _ _ _ _ h10,
      fsRename_ne _ _ _ _ h3.symm h9, fsWrite_ne _ _ _ _ _ h9]
  have hrestL : (restoreConfig cm fsD (listenersPath cm)).map FileRec.content =
      some c1.content := by
    show (copyFileSkip (copyFileSkip fsD (backupListenersPath cm)
        (listenersPath cm) 0o644) (backupClustersPath cm) (clustersPath cm)
        0o644 (listenersPath cm)).map FileRec.content = some c1.content
    rw [copyFileSkip_ne _ _ _ _ _ h1,
      copyFileSkip_dst fsD _ _ _ _ (hD_bL.trans hbackL)]
    rfl
  have hrestC : (restoreConfig cm fsD (clustersPath cm)).map FileRec.content =
      some c2.content := by
    show (copyFileSkip (copyFileSkip fsD (backupListenersPath cm)
        (listenersPath cm) 0o644) (backupClustersPath cm) (clustersPath cm)
        0o644 (clustersPath cm)).map FileRec.content = some c2.content
    have hbc : copyFileSkip fsD (backupListenersPath cm) (listenersPath cm)
        0o644 (backupClustersPath cm) = fsD (backupClustersPath cm) :=
      copyFileSkip_ne _ _ _ _ _ h3.symm
    rw [copyFileSkip_dst _ _ _ _ _ (hbc.trans (hD_bC.trans hbackC))]
    rfl
  have hrun : syncConfiguration env cm (some lb) hash gen false st0 =
      (⟨restoreConfig cm fsD, st0.reloader, st0.lastConfigHash⟩,
        some .reloadFailed, ⟨true, true, true, true, false⟩) := by
    unfold syncConfiguration
    simp only [hval]
    rw [if_neg hhash]
    simp only [hgen, happD]
    simp [Reloader.reload]
  refine ⟨by rw [hrun], ?_, ?_, by rw [hrun], by rw [hrun], ?_⟩
  · rw [hrun]
    exact hrestL
  · rw [hrun]
    exact hrestC
  · intro spawnOk2
    rw [hrun]
    unfold syncConfiguration
    dsimp only
    simp only [hval, hgen]
    rw [if_neg hhash]
    rcases applyConfig cm env.evalSym env.cwd cfg
      (backupConfig cm (restoreConfig cm fsD)) with ⟨fsx, ex⟩
    cases ex with
    | some e => rfl
    | none =>
      cases hsp : (Reloader.reload spawnOk2 st0.reloader).2.2 <;> simp [hsp]

/-- C4 witness: on the S1 input over a filesystem holding the two
managed files, a failing spawn yields the reload error and the rollback
conclusions at concrete values. -/
theorem sync_reload_failure_rolls_back_witness :
    (syncConfiguration envNoSym cmEtcEnvoy (some lbHTTP) hashW genW false
      stTwoFilesW).2.1 = some .reloadFailed :=
  (sync_reload_failure_rolls_back envNoSym cmEtcEnvoy lbHTTP hashW genW
    ⟨[3], [4]⟩ stTwoFilesW ⟨[1], 0o600⟩ ⟨[2], 0o644⟩
    (by decide) (by decide) (by decide) (by decide) (by decide) (by decide)
    (by decide) (by decide) (by decide) (by decide) (by decide) (by decide)
    (by decide) (by decide) (by decide) (by decide) (by decide)).1

end VPSieLB
